import Mathlib

/-!
Verification of the fixed-size vector library `cg/src/util/vx.rs`.

The file shallowly embeds the two record shapes `V3` and `V4` and the
behavior generated for them by the `vector_*` macros, and settles the
frozen claims about construction, array conversion, iteration, ordering,
equality and the arithmetic operators.

Modelling conventions:
* Rust generics over an element type `T` become Lean functions that take
  the element operations explicitly (a function `T → T → T` per operator,
  a default element, a Boolean comparison, ...).
* A Rust iterator is a state `s : S` together with a step function
  `next : S → Option (T × S)`; a finite sequence is the `List` instance
  of that scheme, an infinite one the `ℕ → T` (stream) instance.
* Floating-point element types are modelled by `Fp`: an exact integer
  carrier extended with `nan`, `inf` and `ninf`, whose `add`/`mul`/`sub`/
  `lt`/`beq` follow the IEEE-754 rules for sign, infinity and NaN
  propagation (the only aspects the ordering and equality claims touch).
* In-place mutation (`OP=`) of a field becomes a function returning the
  new value of the receiver.
-/

/-- The 3-field record shape (`V3<T>` at vx.rs:15-21): fields x, y, z. -/
structure V3 (T : Type) where
  x : T
  y : T
  z : T
deriving DecidableEq, Repr

/-- The 4-field record shape (`V4<T>` at vx.rs:23-29). The source declares
exactly the three fields x, y, w, in that order; there is no z field. -/
structure V4 (T : Type) where
  x : T
  y : T
  w : T
deriving DecidableEq, Repr

/-- The trait implementations a shape can receive from the macro
instantiations at vx.rs:169-185, one constructor per generated `impl`
(the `vector_comparator!` line generates both `PartialOrd` and
`PartialEq`, hence two constructors for line 173). -/
inductive Behavior where
  | defaultImpl
  | fromIntoImpl
  | fromIterImpl
  | intoIterImpl
  | ordImpl
  | eqImpl
  | notImpl
  | negImpl
  | addImpl
  | subImpl
  | mulImpl
  | divImpl
  | remImpl
  | addAssignImpl
  | subAssignImpl
  | mulAssignImpl
  | divAssignImpl
  | remAssignImpl
deriving DecidableEq, Repr

/-- The behaviors instantiated for `V3`: vx.rs:169-185 invokes every
macro arm for `V3 { x, y, z }`. -/
def V3.instantiated : List Behavior :=
  [.defaultImpl, .fromIntoImpl, .fromIterImpl, .intoIterImpl,
   .ordImpl, .eqImpl,
   .notImpl, .negImpl,
   .addImpl, .subImpl, .mulImpl, .divImpl, .remImpl,
   .addAssignImpl, .subAssignImpl, .mulAssignImpl, .divAssignImpl,
   .remAssignImpl]

/-- The behaviors instantiated for `V4`: the source contains no macro
invocation for `V4`, so the list is empty (`V4` only derives
Copy/Clone/Debug at vx.rs:24). -/
def V4.instantiated : List Behavior := []

/-- `Default for V3` (vx.rs:31-37): every field set to the element
default `d`. -/
def V3.defaultV (T : Type) (d : T) : V3 T := ⟨d, d, d⟩

/-- `From<&[T; 3]> for V3<T>` (vx.rs:41-46): positional copy of a
fixed-length array, a[0]→x, a[1]→y, a[2]→z (through the `repr(C)`
flat-layout reinterpretation of vx.rs:47-51). -/
def V3.from_array {T : Type} (a : Fin 3 → T) : V3 T := ⟨a 0, a 1, a 2⟩

/-- `From<&V3<T>> for [T; 3]` (vx.rs:57-62): copying conversion to an
owned array, reading the fields in declared order x, y, z (through the
`repr(C)` flat-layout reinterpretation of vx.rs:63-67). -/
def V3.to_array {T : Type} (v : V3 T) : Fin 3 → T := ![v.x, v.y, v.z]

/-- One `iter.next()` call followed by `unwrap_or_default()`
(vx.rs:81): take the yielded item and advance the state, or the default
element `d` with the state unchanged when the iterator is exhausted. -/
def nextOr {S T : Type} (next : S → Option (T × S)) (d : T) (s : S) :
    T × S :=
  match next s with
  | some p => p
  | none => (d, s)

/-- `FromIterator<T> for V3<T>` (vx.rs:78-83): the struct literal
evaluates its fields in declared order x, y, z, calling `next()` once per
field; an exhausted iterator supplies the element default. The final
iterator state is returned alongside the vector so consumption can be
observed. The `FromIterator<&'a T>` impl (vx.rs:84-89) differs only by
dereferencing the yielded references, which the shallow embedding
identifies with the items themselves. -/
def V3.fromIterCore {S T : Type} (next : S → Option (T × S)) (d : T)
    (s : S) : V3 T × S :=
  let px := nextOr next d s
  let py := nextOr next d px.2
  let pz := nextOr next d py.2
  (⟨px.1, py.1, pz.1⟩, pz.2)

/-- The step function of the iterator of a finite sequence (`List`). -/
def listNext {T : Type} : List T → Option (T × List T)
  | [] => none
  | a :: t => some (a, t)

/-- `V3::from_iter` on a finite sequence of elements. -/
def V3.fromIterL {T : Type} (d : T) (l : List T) : V3 T × List T :=
  V3.fromIterCore listNext d l

/-- `V3::from_iter` through the `FromIterator<&'a T>` impl (vx.rs:84-89)
on a finite sequence: references are identified with their targets, so
the body coincides with the by-value impl after the dereference. -/
def V3.fromIterLRef {T : Type} (d : T) (l : List T) : V3 T × List T :=
  V3.fromIterCore listNext d l

/-- The step function of an infinite sequence `f : ℕ → T`: always yields
`f 0` and shifts. -/
def streamNext {T : Type} (f : ℕ → T) : Option (T × (ℕ → T)) :=
  some (f 0, fun n => f (n + 1))

/-- `IntoIterator for V3<T>` (vx.rs:92-98): the produced sequence is the
array `[x, y, z]` of the fields in declared order. -/
def V3.intoIterL {T : Type} (v : V3 T) : List T := [v.x, v.y, v.z]

/-- `IntoIterator for &V3<T>` (vx.rs:99-105, `T: Copy`): the fields are
copied out of the borrowed vector into the same array `[x, y, z]`; the
source vector itself is not consumed or modified. -/
def V3.intoIterRefL {T : Type} (v : V3 T) : List T := [v.x, v.y, v.z]

/-- `PartialEq for V3` (vx.rs:123-127): conjunction of the element
equality `eqT` over the fields in declared order. -/
def V3.eqB {T : Type} (eqT : T → T → Bool) (a b : V3 T) : Bool :=
  eqT a.x b.x && eqT a.y b.y && eqT a.z b.z

/-- The element operations the `T: Float` bound supplies to
`vector_comparator!` (vx.rs:112-122): zero, arithmetic, and the strict
comparison (`<`, with `a > b` read as `lt b a`). -/
structure FloatOps (T : Type) where
  zero : T
  add : T → T → T
  mul : T → T → T
  sub : T → T → T
  lt : T → T → Bool

/-- The squared magnitude `self.x*self.x + self.y*self.y +
self.z*self.z + T::zero()` of vx.rs:114-115, with `+` left-associated as
in the macro expansion. -/
def V3.mag2 {T : Type} (o : FloatOps T) (v : V3 T) : T :=
  o.add (o.add (o.add (o.mul v.x v.x) (o.mul v.y v.y)) (o.mul v.z v.z))
    o.zero

/-- `PartialOrd::partial_cmp for V3` (vx.rs:112-122): compare the
difference of the squared magnitudes against zero; the first guard is
`x < 0`, the second `x > 0` (i.e. `0 < x`), the fallback returns
`Equal`. Every branch is `Some`. -/
def V3.pcmp {T : Type} (o : FloatOps T) (a b : V3 T) : Option Ordering :=
  let self_mag_2 := V3.mag2 o a
  let rhs_mag_2 := V3.mag2 o b
  let d := o.sub self_mag_2 rhs_mag_2
  if o.lt d o.zero then some Ordering.lt
  else if o.lt o.zero d then some Ordering.gt
  else some Ordering.eq

/-- The `binary` arm of `vector_operator!` (vx.rs:141-147),
vector-vector form: apply the element operator `f` field-wise. -/
def V3.binOp {T : Type} (f : T → T → T) (a b : V3 T) : V3 T :=
  ⟨f a.x b.x, f a.y b.y, f a.z b.z⟩

/-- The `binary` arm of `vector_operator!` (vx.rs:148-153),
vector-scalar form: broadcast the scalar `s` against every field. -/
def V3.binOpS {T : Type} (f : T → T → T) (a : V3 T) (s : T) : V3 T :=
  ⟨f a.x s, f a.y s, f a.z s⟩

/-- The `assign` arm of `vector_operator!` (vx.rs:155-160),
vector-vector form: mutate each field of the receiver with the element
in-place operator `g`, modelled as returning the updated receiver. -/
def V3.assignOp {T : Type} (g : T → T → T) (a b : V3 T) : V3 T :=
  ⟨g a.x b.x, g a.y b.y, g a.z b.z⟩

/-- The `assign` arm of `vector_operator!` (vx.rs:161-165),
vector-scalar form. -/
def V3.assignOpS {T : Type} (g : T → T → T) (a : V3 T) (s : T) : V3 T :=
  ⟨g a.x s, g a.y s, g a.z s⟩

/-- The `unary` arm of `vector_operator!` (vx.rs:133-140): apply the
element unary operator field-wise. -/
def V3.unOp {T : Type} (f : T → T) (a : V3 T) : V3 T :=
  ⟨f a.x, f a.y, f a.z⟩

/-- A floating-point element type: exact integers extended with the IEEE
special values. `num n` stands for a finite float of value `n`; `nan`,
`inf` and `ninf` are NaN and the two infinities. -/
inductive Fp where
  | num : Int → Fp
  | inf : Fp
  | ninf : Fp
  | nan : Fp
deriving DecidableEq, Repr

/-- `T::zero()` for `Fp`. -/
def Fp.zero : Fp := .num 0

/-- IEEE addition on `Fp`: NaN absorbs, opposite infinities give NaN. -/
def Fp.add : Fp → Fp → Fp
  | .num a, .num b => .num (a + b)
  | .num _, .inf => .inf
  | .num _, .ninf => .ninf
  | .inf, .num _ => .inf
  | .inf, .inf => .inf
  | .inf, .ninf => .nan
  | .ninf, .num _ => .ninf
  | .ninf, .inf => .nan
  | .ninf, .ninf => .ninf
  | .nan, _ => .nan
  | _, .nan => .nan

/-- IEEE negation on `Fp`. -/
def Fp.neg : Fp → Fp
  | .num a => .num (-a)
  | .inf => .ninf
  | .ninf => .inf
  | .nan => .nan

/-- IEEE subtraction on `Fp`: addition of the negation. -/
def Fp.sub (a b : Fp) : Fp := Fp.add a (Fp.neg b)

/-- IEEE multiplication on `Fp`: NaN absorbs, zero times infinity is
NaN, otherwise infinities follow the sign rule. -/
def Fp.mul : Fp → Fp → Fp
  | .num a, .num b => .num (a * b)
  | .num a, .inf => if 0 < a then .inf else if a < 0 then .ninf else .nan
  | .num a, .ninf => if 0 < a then .ninf else if a < 0 then .inf else .nan
  | .inf, .num a => if 0 < a then .inf else if a < 0 then .ninf else .nan
  | .ninf, .num a => if 0 < a then .ninf else if a < 0 then .inf else .nan
  | .inf, .inf => .inf
  | .inf, .ninf => .ninf
  | .ninf, .inf => .ninf
  | .ninf, .ninf => .inf
  | .nan, _ => .nan
  | _, .nan => .nan

/-- IEEE strict comparison on `Fp`: NaN is incomparable to everything
(both guards false), otherwise the order extends the finite order with
the infinities at the ends. -/
def Fp.lt : Fp → Fp → Bool
  | .nan, _ => false
  | _, .nan => false
  | .num a, .num b => decide (a < b)
  | .num _, .inf => true
  | .num _, .ninf => false
  | .inf, .num _ => false
  | .inf, .inf => false
  | .inf, .ninf => false
  | .ninf, .num _ => true
  | .ninf, .inf => true
  | .ninf, .ninf => false

/-- IEEE equality on `Fp` (the `PartialEq` of a float type): NaN is
equal to nothing, itself included; finite values compare exactly. -/
def Fp.beq : Fp → Fp → Bool
  | .num a, .num b => decide (a = b)
  | .inf, .inf => true
  | .ninf, .ninf => true
  | _, _ => false

/-- The `FloatOps` bundle the `T: Float` bound provides at `T = Fp`. -/
def fopsFp : FloatOps Fp := ⟨Fp.zero, Fp.add, Fp.mul, Fp.sub, Fp.lt⟩

/-- Claim C1 (as stated) is refuted: the `Default` implementation is
provided for the 3-field shape (vx.rs:169) but no behavior at all is
instantiated for the 4-field shape, so the behavior set of `V3` is not
contained in that of `V4`. -/
theorem c1_counterexample :
    Behavior.defaultImpl ∈ V3.instantiated ∧
    Behavior.defaultImpl ∉ V4.instantiated := by
  decide

/-- Claim C1, amended: the full supporting behavior set (default
construction, array conversion, construction from an iterator,
iteration, ordering, equality, and the unary/binary/scalar/in-place
operators) is instantiated for the 3-field shape only; none of it is
instantiated for the 4-field shape, which remains a bare struct. -/
theorem c1_amended (b : Behavior) :
    b ∈ V3.instantiated ∧ b ∉ V4.instantiated := by
  cases b <;> decide

/-- Claim C2: the 4-field shape `V4` is determined by exactly the three
fields x, y, w — two values agree iff those fields agree — and its
constructor takes them in the order x, y, w with projections returning
each argument verbatim. -/
theorem c2_fields (T : Type) (a b : V4 T) :
    (a = b ↔ a.x = b.x ∧ a.y = b.y ∧ a.w = b.w) ∧
    (∀ p q r : T,
      (V4.mk p q r).x = p ∧ (V4.mk p q r).y = q ∧ (V4.mk p q r).w = r) := by
  constructor
  · constructor
    · intro h
      subst h
      exact ⟨rfl, rfl, rfl⟩
    · intro h
      cases a
      cases b
      simp_all
  · intro p q r
    exact ⟨rfl, rfl, rfl⟩

/-- The projections of the `Fp` operation bundle. -/
theorem fopsFp_zero : fopsFp.zero = Fp.zero := rfl

/-- The subtraction of the `Fp` operation bundle. -/
theorem fopsFp_sub : fopsFp.sub = Fp.sub := rfl

/-- The comparison of the `Fp` operation bundle. -/
theorem fopsFp_lt : fopsFp.lt = Fp.lt := rfl

/-- Unfolding of `partial_cmp`: the guards of vx.rs:116-120 on the
difference of the squared magnitudes. -/
theorem V3.pcmp_eq {T : Type} (o : FloatOps T) (a b : V3 T) :
    V3.pcmp o a b =
      if o.lt (o.sub (V3.mag2 o a) (V3.mag2 o b)) o.zero then
        some Ordering.lt
      else if o.lt o.zero (o.sub (V3.mag2 o a) (V3.mag2 o b)) then
        some Ordering.gt
      else some Ordering.eq := rfl

/-- `Fp.lt` is asymmetric against zero: a value strictly above zero is
not strictly below it. -/
theorem Fp.lt_zero_asymm {x : Fp} (h : Fp.lt Fp.zero x = true) :
    Fp.lt x Fp.zero = false := by
  cases x <;> simp_all [Fp.lt, Fp.zero]
  omega

/-- Claim C3: over the floating element type `Fp`, `partial_cmp`
compares the difference of the squared magnitudes against zero —
negative gives `Less`, positive gives `Greater`, zero gives `Equal` —
and on the concrete examples, vectors (1,0,0) and (0,1,0) of equal
squared magnitude compare `Equal` while (2,0,0) compares `Greater` than
(1,0,0). -/
theorem c3_mag_order :
    (∀ a b : V3 Fp,
      (Fp.lt (Fp.sub (V3.mag2 fopsFp a) (V3.mag2 fopsFp b)) Fp.zero = true →
        V3.pcmp fopsFp a b = some Ordering.lt) ∧
      (Fp.lt Fp.zero (Fp.sub (V3.mag2 fopsFp a) (V3.mag2 fopsFp b)) = true →
        V3.pcmp fopsFp a b = some Ordering.gt) ∧
      (Fp.sub (V3.mag2 fopsFp a) (V3.mag2 fopsFp b) = Fp.zero →
        V3.pcmp fopsFp a b = some Ordering.eq)) ∧
    V3.pcmp fopsFp ⟨Fp.num 1, Fp.num 0, Fp.num 0⟩
      ⟨Fp.num 0, Fp.num 1, Fp.num 0⟩ = some Ordering.eq ∧
    V3.pcmp fopsFp ⟨Fp.num 2, Fp.num 0, Fp.num 0⟩
      ⟨Fp.num 1, Fp.num 0, Fp.num 0⟩ = some Ordering.gt := by
  refine ⟨?_, by decide, by decide⟩
  intro a b
  refine ⟨?_, ?_, ?_⟩
  · intro h
    rw [V3.pcmp_eq]
    simp only [fopsFp_lt, fopsFp_sub, fopsFp_zero, h, if_true]
  · intro h
    rw [V3.pcmp_eq]
    simp only [fopsFp_lt, fopsFp_sub, fopsFp_zero, h, Fp.lt_zero_asymm h,
      if_true, if_false, Bool.false_eq_true]
  · intro h
    rw [V3.pcmp_eq]
    simp only [fopsFp_lt, fopsFp_sub, fopsFp_zero, h]
    decide

/-- Claim C3 witness: a concrete negative difference yields `Less`. -/
theorem c3_witness :
    V3.pcmp fopsFp ⟨Fp.num 0, Fp.num 0, Fp.num 0⟩
      ⟨Fp.num 1, Fp.num 0, Fp.num 0⟩ = some Ordering.lt :=
  (c3_mag_order.1 _ _).1 (by decide)

/-- Claim C4 (as stated) is refuted: the generated equality is not
reflexive for every element type on which it is defined. It is defined
for every element type with a `PartialEq`, including floating types,
and on the floating type `Fp` the vector (NaN, 0, 0) does not equal
itself, because NaN is not equal to NaN. -/
theorem c4_counterexample :
    V3.eqB Fp.beq ⟨Fp.nan, Fp.num 0, Fp.num 0⟩
      ⟨Fp.nan, Fp.num 0, Fp.num 0⟩ = false := by
  decide

/-- Claim C4, amended: `equals(a, b)` is true iff every corresponding
field is equal under the element type's own equality (no tolerance),
and the relation is reflexive, symmetric or transitive whenever the
element equality has that property; for floating element types
reflexivity fails on vectors containing NaN, so the relation is not
reflexive for every element type on which it is defined. -/
theorem c4_amended {T : Type} (eqT : T → T → Bool) :
    (∀ a b : V3 T,
      V3.eqB eqT a b = true ↔
        eqT a.x b.x = true ∧ eqT a.y b.y = true ∧ eqT a.z b.z = true) ∧
    ((∀ t, eqT t t = true) → ∀ a : V3 T, V3.eqB eqT a a = true) ∧
    ((∀ s t, eqT s t = eqT t s) →
      ∀ a b : V3 T, V3.eqB eqT a b = V3.eqB eqT b a) ∧
    ((∀ s t u, eqT s t = true → eqT t u = true → eqT s u = true) →
      ∀ a b c : V3 T, V3.eqB eqT a b = true → V3.eqB eqT b c = true →
        V3.eqB eqT a c = true) := by
  refine ⟨?_, ?_, ?_, ?_⟩
  · intro a b
    simp [V3.eqB, and_assoc]
  · intro h a
    simp [V3.eqB, h]
  · intro h a b
    simp only [V3.eqB, h a.x b.x, h a.y b.y, h a.z b.z]
  · intro h a b c hab hbc
    simp only [V3.eqB, Bool.and_eq_true] at hab hbc ⊢
    exact ⟨⟨h _ _ _ hab.1.1 hbc.1.1, h _ _ _ hab.1.2 hbc.1.2⟩,
      h _ _ _ hab.2 hbc.2⟩

/-- Claim C4 witness: with boolean elements and their equality (which
is reflexive), a concrete vector equals itself. -/
theorem c4_witness :
    V3.eqB (fun s t : Bool => s == t) ⟨true, false, true⟩
      ⟨true, false, true⟩ = true :=
  (c4_amended (fun s t : Bool => s == t)).2.1 (by decide)
    ⟨true, false, true⟩

/-- Claim C5: building from a finite sequence assigns the i-th item to
the i-th field in declared order, pads missing items with the element
default, ignores items beyond the third, never fails, and on the empty
sequence yields the all-default vector; the by-reference construction
agrees. -/
theorem c5_from_iter {T : Type} (l : List T) (d : T) :
    V3.fromIterL d l = (⟨l.getD 0 d, l.getD 1 d, l.getD 2 d⟩, l.drop 3) ∧
    V3.fromIterL d ([] : List T) = (⟨d, d, d⟩, []) ∧
    V3.fromIterLRef d l = V3.fromIterL d l := by
  refine ⟨?_, rfl, rfl⟩
  rcases l with _ | ⟨a, _ | ⟨b, _ | ⟨c, t⟩⟩⟩ <;> rfl

/-- Claim C6: converting a vector to an owned array and back yields the
original vector, and the array-to-vector conversion is the positional
copy a[0]→x, a[1]→y, a[2]→z. -/
theorem c6_array_round_trip {T : Type} (v : V3 T) (a : Fin 3 → T) :
    V3.from_array (V3.to_array v) = v ∧
    (V3.from_array a).x = a 0 ∧ (V3.from_array a).y = a 1 ∧
    (V3.from_array a).z = a 2 := by
  exact ⟨rfl, rfl, rfl, rfl⟩

/-- Claim C7: iterating a vector by value or by reference yields exactly
3 items, the fields in declared order x, y, z; iteration by reference
reads the fields of an unchanged source; and rebuilding the collected
items with `from_iter` recovers the original vector (with nothing left
over). -/
theorem c7_into_iter {T : Type} (v : V3 T) (d : T) :
    V3.intoIterL v = [v.x, v.y, v.z] ∧
    V3.intoIterRefL v = V3.intoIterL v ∧
    (V3.intoIterL v).length = 3 ∧
    V3.fromIterL d (V3.intoIterL v) = (v, []) := by
  exact ⟨rfl, rfl, rfl, rfl⟩

/-- Claim C8: whenever the element type's in-place operator agrees with
its binary operator, the in-place vector-vector and vector-scalar forms
leave the receiver equal to the value of the corresponding binary form
computed from the original operands. The five generated operators (add,
subtract, multiply, divide, remainder) are instances of the quantified
element operator. -/
theorem c8_assign_equiv {T : Type} (op opA : T → T → T)
    (h : ∀ s t, opA s t = op s t) (a b : V3 T) (s : T) :
    V3.assignOp opA a b = V3.binOp op a b ∧
    V3.assignOpS opA a s = V3.binOpS op a s := by
  constructor
  · simp [V3.assignOp, V3.binOp, h]
  · simp [V3.assignOpS, V3.binOpS, h]

/-- Claim C8 witness: integer addition with its in-place form on
concrete vectors and a concrete scalar. -/
theorem c8_witness :
    V3.assignOp (fun s t : Int => s + t) ⟨1, 2, 3⟩ ⟨4, 5, 6⟩ =
      V3.binOp (fun s t : Int => s + t) ⟨1, 2, 3⟩ ⟨4, 5, 6⟩ ∧
    V3.assignOpS (fun s t : Int => s + t) ⟨1, 2, 3⟩ 10 =
      V3.binOpS (fun s t : Int => s + t) ⟨1, 2, 3⟩ 10 :=
  c8_assign_equiv (fun s t : Int => s + t) (fun s t : Int => s + t)
    (fun _ _ => rfl) ⟨1, 2, 3⟩ ⟨4, 5, 6⟩ 10

/-- Claim C9: on the floating element type `Fp`, `partial_cmp` always
returns a defined result (`Option.isSome`), and when the difference of
the squared magnitudes is NaN neither strict-comparison guard holds, so
the result is `Equal`. -/
theorem c9_total (a b : V3 Fp) :
    (V3.pcmp fopsFp a b).isSome = true ∧
    (Fp.sub (V3.mag2 fopsFp a) (V3.mag2 fopsFp b) = Fp.nan →
      V3.pcmp fopsFp a b = some Ordering.eq) := by
  constructor
  · rw [V3.pcmp_eq]
    split
    · rfl
    · split
      · rfl
      · rfl
  · intro h
    rw [V3.pcmp_eq]
    simp only [fopsFp_lt, fopsFp_sub, fopsFp_zero, h]
    decide

/-- Claim C9 witness: a vector with a NaN field produces a NaN squared
magnitude difference against the zero vector, and the comparison is
`Equal` (a defined result). -/
theorem c9_witness :
    V3.pcmp fopsFp ⟨Fp.nan, Fp.num 0, Fp.num 0⟩
      ⟨Fp.num 0, Fp.num 0, Fp.num 0⟩ = some Ordering.eq :=
  (c9_total ⟨Fp.nan, Fp.num 0, Fp.num 0⟩
    ⟨Fp.num 0, Fp.num 0, Fp.num 0⟩).2 (by decide)

/-- Claim C10: building from an infinite sequence calls `next` exactly
once per field — three calls in total — terminates with the fully
defined vector of the first three items, and leaves every later item
unconsumed: the leftover sequence is the input shifted by exactly 3. -/
theorem c10_stream {T : Type} (f : ℕ → T) (d : T) :
    (V3.fromIterCore streamNext d f).1 = ⟨f 0, f 1, f 2⟩ ∧
    ∀ n, (V3.fromIterCore streamNext d f).2 n = f (n + 3) := by
  exact ⟨rfl, fun n => rfl⟩
